import Mathlib

/-!
Verification of the medical-processing workflow engine
(`backend/app/graph/{schemas,nodes,workflow}.py` and
`backend/app/utils/audio_downloader.py`).

The embedding is shallow: each Python function relevant to the claims is
translated into an executable Lean definition.  External collaborators
(the Whisper transcription provider, the chat-completion provider, and
the standard-library JSON decoder `json.loads`) are modelled as function
parameters ("oracles"): the code under verification only branches on
their results.  Wall-clock durations are modelled as `Nat` parameters.
Tracing (Langfuse) is pure best-effort telemetry in the source — every
tracing call is wrapped in its own try/except and never alters the
workflow state, the control flow, or the returned values — so it is not
part of the state embedding.

Python string primitives (`str.strip`, `str.split('\n')`,
`str.startswith`, `str.replace`) are given structural-recursive
definitions over `String.data` so that all definitions evaluate inside
the kernel.  `pyStrip` covers the ASCII whitespace characters stripped
by Python's `str.strip()`.
-/

/-- Whitespace test used by Python's `str.strip()` (ASCII range). -/
def pyIsSpace (c : Char) : Bool :=
  c = ' ' ∨ c = '\t' ∨ c = '\n' ∨ c = '\r' ∨ c = '\x0b' ∨ c = '\x0c'

/-- Python `s.strip()` on a character list: drop whitespace from both ends. -/
def pyStripList (s : List Char) : List Char :=
  ((s.dropWhile pyIsSpace).reverse.dropWhile pyIsSpace).reverse

/-- Python `s.strip()`. -/
def pyStrip (s : String) : String :=
  String.mk (pyStripList s.data)

/-- Python `s.split('\n')` on a character list: split at every newline,
keeping empty pieces (`[] ↦ [[]]`). -/
def pySplitLines : List Char → List (List Char)
  | [] => [[]]
  | c :: cs =>
    if c = '\n' then [] :: pySplitLines cs
    else
      match pySplitLines cs with
      | [] => [[c]]
      | l :: ls => (c :: l) :: ls

/-- Python `s.split('\n')`. -/
def pyLines (s : String) : List String :=
  (pySplitLines s.data).map String.mk

/-- Python `s.startswith(pre)`. -/
def pyStartsWith (s pre : String) : Bool :=
  pre.data.isPrefixOf s.data

/-- Fuel-driven worker for `pyReplace`; one unit of fuel is spent per
character of the subject consumed, so `s.length` fuel always suffices. -/
def pyReplaceAux (pat rep : List Char) : Nat → List Char → List Char
  | 0, s => s
  | _ + 1, [] => []
  | fuel + 1, c :: cs =>
    if pat.isPrefixOf (c :: cs) then
      rep ++ pyReplaceAux pat rep fuel (cs.drop (pat.length - 1))
    else
      c :: pyReplaceAux pat rep fuel cs

/-- Python `s.replace(pat, rep)`: replace every non-overlapping occurrence,
left to right.  (The `pat = ""` corner of Python is not reached by the
embedded code, whose patterns are fixed non-empty literals.) -/
def pyReplace (s pat rep : String) : String :=
  if pat.data = [] then s
  else String.mk (pyReplaceAux pat.data rep.data s.data.length s.data)

/-- Python truthiness of an optional string (`None` and `""` are falsy). -/
def pyTruthy (o : Option String) : Bool :=
  match o with
  | none => false
  | some s => s ≠ ""

/-! ## Data model (`backend/app/graph/schemas.py`) -/

/-- Model of `ProcessingRequest`: `audio_url` and `text`, both optional. -/
structure ProcessingRequest where
  audio_url : Option String := none
  text : Option String := none
deriving Repr, DecidableEq

/-- Model of `PatientInfo`: optional demographics; `age` is range-checked to
`[0, 150]` by the pydantic validator when parsed from JSON. -/
structure PatientInfo where
  name : Option String := none
  age : Option Int := none
  identification_number : Option String := none
  gender : Option String := none
  contact_info : Option String := none
deriving Repr, DecidableEq

/-- Model of `MedicalExtraction`. -/
structure MedicalExtraction where
  symptoms : List String := []
  patient_info : PatientInfo := {}
  consultation_reason : String := ""
  extracted_text : String := ""
deriving Repr, DecidableEq

/-- Model of `DiagnosisResult`. -/
structure DiagnosisResult where
  diagnosis : String := ""
  treatment_plan : String := ""
  recommendations : String := ""
deriving Repr, DecidableEq

/-- Model of `ProcessingResult` (the `timestamp` field of the source is a
creation-instant default; like all wall-clock values it is outside the
embedding). -/
structure ProcessingResult where
  transcription : String := ""
  medical_extraction : MedicalExtraction := {}
  diagnosis_result : DiagnosisResult := {}
  processing_time : Nat := 0
deriving Repr, DecidableEq

/-- Model of `WorkflowState`: the single mutable object threaded through the three
stages.  `processing_metadata` is the stage-name-to-seconds mapping,
modelled as an association list with Python-dict assignment semantics. -/
structure WorkflowState where
  input_data : ProcessingRequest
  transcription : String := ""
  medical_extraction : MedicalExtraction := {}
  diagnosis_result : DiagnosisResult := {}
  processing_metadata : List (String × Nat) := []
  errors : List String := []
deriving Repr, DecidableEq

/-- Python dict assignment `d[k] = v` on an association list: overwrite the
existing binding, else append a new one. -/
def setMeta (m : List (String × Nat)) (k : String) (v : Nat) : List (String × Nat) :=
  if m.any (fun p => p.1 = k) then
    m.map (fun p => if p.1 = k then (k, v) else p)
  else
    m ++ [(k, v)]

/-- Python dict lookup `d.get(k)` on an association list. -/
def lookupMeta (m : List (String × Nat)) (k : String) : Option Nat :=
  (m.find? (fun p => p.1 = k)).map (fun p => p.2)

/-! ## JSON values and the extraction stage's parsing
(`backend/app/graph/nodes.py`, lines 194-216)

`json.loads` itself is the standard library; the stage is therefore
parametrised by an oracle `loads : String → Option Json` (`none` models a
`json.JSONDecodeError`).  What the stage does with the decoded value —
`dict.get` defaulting, `PatientInfo(**...)` construction with pydantic
field validation, and `MedicalExtraction(...)` construction — is embedded
below.  A returned `Except.error` models an exception (`AttributeError`,
`TypeError` or pydantic `ValidationError`) raised after a successful JSON
decode; such an exception is NOT caught by the inner
`except json.JSONDecodeError` handler and falls through to the stage's
generic `except Exception` handler. -/

/-- A decoded JSON value (the result of a successful `json.loads`). -/
inductive Json where
  | null : Json
  | bool : Bool → Json
  | num : Int → Json
  | str : String → Json
  | arr : List Json → Json
  | obj : List (String × Json) → Json

/-- Key lookup in a decoded JSON object (Python `dict.get`). -/
def jsonLookup (fields : List (String × Json)) (k : String) : Option Json :=
  (fields.find? (fun p => p.1 = k)).map (fun p => p.2)

/-- Pydantic validation of an `Optional[str]` field. -/
def validateOptStr (fieldName : String) (j : Option Json) : Except String (Option String) :=
  match j with
  | none => Except.ok none
  | some Json.null => Except.ok none
  | some (Json.str s) => Except.ok (some s)
  | some _ => Except.error ("validation error: " ++ fieldName ++ " is not a string")

/-- Pydantic validation of `age : Optional[int]` with `ge=0, le=150`. -/
def validateAge (j : Option Json) : Except String (Option Int) :=
  match j with
  | none => Except.ok none
  | some Json.null => Except.ok none
  | some (Json.num n) =>
    if 0 ≤ n ∧ n ≤ 150 then Except.ok (some n)
    else Except.error "validation error: age must be between 0 and 150"
  | some _ => Except.error "validation error: age is not an integer"

/-- Model of `PatientInfo(**value)`: the value must be a JSON object (else the `**`
unpacking raises a `TypeError`); each declared field is then validated,
extra keys are ignored (pydantic default). -/
def parsePatientInfo (j : Json) : Except String PatientInfo :=
  match j with
  | Json.obj fields => do
    let nm ← validateOptStr "name" (jsonLookup fields "name")
    let ag ← validateAge (jsonLookup fields "age")
    let idn ← validateOptStr "identification_number" (jsonLookup fields "identification_number")
    let gd ← validateOptStr "gender" (jsonLookup fields "gender")
    let ci ← validateOptStr "contact_info" (jsonLookup fields "contact_info")
    return { name := nm, age := ag, identification_number := idn,
             gender := gd, contact_info := ci }
  | _ => Except.error "TypeError: patient_info is not a mapping"

/-- Pydantic validation of `symptoms : List[str]` element by element. -/
def asStrList : List Json → Except String (List String)
  | [] => Except.ok []
  | Json.str s :: rest => (asStrList rest).map (fun xs => s :: xs)
  | _ :: _ => Except.error "validation error: symptoms entry is not a string"

/-- The extraction stage's handling of a successfully decoded JSON value
(nodes.py lines 199-205): `extracted_data.get(...)` defaulting followed by
`PatientInfo` / `MedicalExtraction` construction.  `Except.error` models an
uncaught exception (see section comment). -/
def parseExtraction (transcription : String) (j : Json) : Except String MedicalExtraction :=
  match j with
  | Json.obj fields => do
    let pi ← parsePatientInfo ((jsonLookup fields "patient_info").getD (Json.obj []))
    let sy ← (match jsonLookup fields "symptoms" with
      | none => Except.ok []
      | some (Json.arr xs) => asStrList xs
      | some _ => Except.error "validation error: symptoms is not a list")
    let cr ← (match jsonLookup fields "consultation_reason" with
      | none => Except.ok ""
      | some (Json.str s) => Except.ok s
      | some _ => Except.error "validation error: consultation_reason is not a string")
    let et ← (match jsonLookup fields "extracted_text" with
      | none => Except.ok transcription
      | some (Json.str s) => Except.ok s
      | some _ => Except.error "validation error: extracted_text is not a string")
    return { symptoms := sy, patient_info := pi, consultation_reason := cr,
             extracted_text := et }
  | _ => Except.error "AttributeError: decoded JSON value is not an object"

/-- The fixed fallback `MedicalExtraction` produced when the completion is
not parseable as JSON (nodes.py lines 207-214). -/
def fallbackExtraction (transcription : String) : MedicalExtraction :=
  { symptoms := ["Unable to parse symptoms"]
    patient_info := {}
    consultation_reason := "Unable to parse consultation reason"
    extracted_text := transcription }

/-! ## Diagnosis-completion parser (`backend/app/graph/nodes.py`, lines 346-375) -/

/-- Value of the Python local `current_section` (`None`, `"diagnosis"`,
`"treatment"` or `"recommendations"`); also the states of the line-oriented
state machine described by the spec (`before_any_section`, `in_diagnosis`,
`in_treatment`, `in_recommendations`). -/
inductive SectionTag where
  | beforeAny : SectionTag
  | diagnosis : SectionTag
  | treatment : SectionTag
  | recommendations : SectionTag
deriving Repr, DecidableEq

/-- Accumulator of the source parser: the three growing string buffers and
the current section. -/
structure ParseAcc where
  diagnosis : String := ""
  treatment_plan : String := ""
  recommendations : String := ""
  current : SectionTag := SectionTag.beforeAny
deriving Repr, DecidableEq

/-- One iteration of the source's `for line in lines` loop. -/
def parseLine (acc : ParseAcc) (rawLine : String) : ParseAcc :=
  let line := pyStrip rawLine
  if pyStartsWith line "DIAGNOSIS:" then
    { acc with current := SectionTag.diagnosis,
               diagnosis := acc.diagnosis ++ (pyStrip (pyReplace line "DIAGNOSIS:" "") ++ "\n") }
  else if pyStartsWith line "TREATMENT PLAN:" then
    { acc with current := SectionTag.treatment,
               treatment_plan := acc.treatment_plan ++ (pyStrip (pyReplace line "TREATMENT PLAN:" "") ++ "\n") }
  else if pyStartsWith line "RECOMMENDATIONS:" then
    { acc with current := SectionTag.recommendations,
               recommendations := acc.recommendations ++ (pyStrip (pyReplace line "RECOMMENDATIONS:" "") ++ "\n") }
  else
    match acc.current with
    | SectionTag.beforeAny => acc
    | SectionTag.diagnosis => { acc with diagnosis := acc.diagnosis ++ (line ++ "\n") }
    | SectionTag.treatment => { acc with treatment_plan := acc.treatment_plan ++ (line ++ "\n") }
    | SectionTag.recommendations => { acc with recommendations := acc.recommendations ++ (line ++ "\n") }

/-- The diagnosis stage's parser of the structured LLM completion
(nodes.py lines 346-375): split on newlines, run the loop, strip each
final field. -/
def parse_diagnosis (diagnosis_text : String) : DiagnosisResult :=
  let acc := (pyLines diagnosis_text).foldl parseLine {}
  { diagnosis := pyStrip acc.diagnosis
    treatment_plan := pyStrip acc.treatment_plan
    recommendations := pyStrip acc.recommendations }

/-! ## Prompt construction (`backend/app/graph/nodes.py`) -/

/-- The extraction stage's prompt template (nodes.py lines 158-178),
interpolating the stage's input transcription. -/
def extraction_prompt (t : String) : String :=
  String.intercalate "\n"
    [ ""
    , "        Analyze the following medical text and extract structured information."
    , "        Return ONLY a valid JSON object with the following structure:"
    , "        "
    , "        \x7b"
    , "            \"symptoms\": [\"symptom1\", \"symptom2\", ...],"
    , "            \"patient_info\": \x7b"
    , "                \"name\": \"patient name or null\","
    , "                \"age\": age_number_or_null,"
    , "                \"identification_number\": \"id or null\","
    , "                \"gender\": \"gender or null\","
    , "                \"contact_info\": \"contact or null\""
    , "            \x7d,"
    , "            \"consultation_reason\": \"brief reason for consultation\","
    , "            \"extracted_text\": \"the original text\""
    , "        \x7d"
    , "        "
    , "        Text to analyze: " ++ t
    , "        "
    , "        JSON:"
    , "        " ]

/-- Python `", ".join(symptoms) if symptoms else "No specific symptoms identified"`. -/
def symptomsText (me : MedicalExtraction) : String :=
  match me.symptoms with
  | [] => "No specific symptoms identified"
  | _ => String.intercalate ", " me.symptoms

/-- Python `age or "unknown"` interpolated into the prompt (an age of `0`
is falsy, hence also rendered as `"unknown"`). -/
def ageText (a : Option Int) : String :=
  match a with
  | none => "unknown"
  | some n => if n = 0 then "unknown" else toString n

/-- Python `gender or "unknown"`. -/
def genderText (g : Option String) : String :=
  match g with
  | none => "unknown"
  | some s => if s = "" then "unknown" else s

/-- Python `consultation_reason or "General consultation"`. -/
def reasonText (r : String) : String :=
  if r = "" then "General consultation" else r

/-- The diagnosis stage's prompt template (nodes.py lines 296-329),
interpolating the placeholder-substituted extraction fields. -/
def diagnosis_prompt (me : MedicalExtraction) : String :=
  String.intercalate "\n"
    [ ""
    , "        Based on the following medical information, provide a comprehensive medical assessment:"
    , "        "
    , "        Patient Information:"
    , "        - Age: " ++ ageText me.patient_info.age
    , "        - Gender: " ++ genderText me.patient_info.gender
    , "        - Consultation Reason: " ++ reasonText me.consultation_reason
    , "        "
    , "        Symptoms: " ++ symptomsText me
    , "        "
    , "        Please provide:"
    , "        1. A possible diagnosis (be conservative and suggest further evaluation when appropriate)"
    , "        2. A treatment plan with specific recommendations"
    , "        3. Additional recommendations for care or follow-up"
    , "        "
    , "        Important: This is for educational/demo purposes only. Always emphasize the need for proper medical consultation."
    , "        "
    , "        Format your response as:"
    , "        "
    , "        DIAGNOSIS:"
    , "        [Your diagnosis here]"
    , "        "
    , "        TREATMENT PLAN:"
    , "        [Your treatment plan here]"
    , "        "
    , "        RECOMMENDATIONS:"
    , "        [Your recommendations here]"
    , "        " ]

/-! ## Stage functions (`backend/app/graph/nodes.py`)

Each node is a total function on `WorkflowState`: the entire body of every
node is wrapped in `try: ... except Exception:` which appends a formatted
error string to `state.errors` and returns normally (a recoverable stage
failure).  The external capabilities are oracle parameters:

* `transcribe` bundles the audio path's download + Whisper call
  (`Except.error e` models any exception raised there, whose message is
  interpolated into the error string);
* `complete` is the chat-completion capability (nodes' `llm.invoke`);
* `loads` is `json.loads` (see above);
* `elapsed` is the wall-clock duration recorded in `processing_metadata`.
-/

/-- Node 1, `transcription_node`.  Direct text input (Python-truthy) takes
the first branch verbatim with a recorded time of `0`; otherwise a truthy
`audio_url` is resolved and transcribed; otherwise
`ValueError("No audio URL or text provided")` is raised and caught by the
stage's generic handler. -/
def transcription_node (transcribe : String → Except String String)
    (elapsed : Nat) (state : WorkflowState) : WorkflowState :=
  if pyTruthy state.input_data.text then
    { state with
      transcription := state.input_data.text.getD ""
      processing_metadata := setMeta state.processing_metadata "transcription_time" 0 }
  else if pyTruthy state.input_data.audio_url then
    match transcribe (state.input_data.audio_url.getD "") with
    | Except.ok t =>
      { state with
        transcription := t
        processing_metadata := setMeta state.processing_metadata "transcription_time" elapsed }
    | Except.error e =>
      { state with errors := state.errors ++ ["Transcription failed: " ++ e] }
  else
    { state with errors := state.errors ++ ["Transcription failed: No audio URL or text provided"] }

/-- Node 2, `medical_extraction_node`.  The completion is requested for the
prompt built from `state.transcription`; a completion-capability failure is
caught by the generic handler.  On completion success the stripped content
is decoded: a JSON decode failure yields the fixed fallback extraction
(inner `except json.JSONDecodeError`); a post-decode shape error escapes to
the generic handler, leaving `medical_extraction` untouched. -/
def medical_extraction_node (loads : String → Option Json)
    (complete : String → Except String String)
    (elapsed : Nat) (state : WorkflowState) : WorkflowState :=
  match complete (extraction_prompt state.transcription) with
  | Except.error e =>
    { state with errors := state.errors ++ ["Medical extraction failed: " ++ e] }
  | Except.ok content =>
    match loads (pyStrip content) with
    | none =>
      { state with
        medical_extraction := fallbackExtraction state.transcription
        processing_metadata := setMeta state.processing_metadata "extraction_time" elapsed }
    | some j =>
      match parseExtraction state.transcription j with
      | Except.error e =>
        { state with errors := state.errors ++ ["Medical extraction failed: " ++ e] }
      | Except.ok me =>
        { state with
          medical_extraction := me
          processing_metadata := setMeta state.processing_metadata "extraction_time" elapsed }

/-- Node 3, `diagnosis_node`.  The completion is requested for the prompt
built from `state.medical_extraction`; on success the completion text is
parsed by `parse_diagnosis`; a completion failure is caught by the generic
handler. -/
def diagnosis_node (complete : String → Except String String)
    (elapsed : Nat) (state : WorkflowState) : WorkflowState :=
  match complete (diagnosis_prompt state.medical_extraction) with
  | Except.error e =>
    { state with errors := state.errors ++ ["Diagnosis generation failed: " ++ e] }
  | Except.ok diagnosis_text =>
    { state with
      diagnosis_result := parse_diagnosis diagnosis_text
      processing_metadata := setMeta state.processing_metadata "diagnosis_time" elapsed }

/-! ## Temporary-file cleanup (`backend/app/utils/audio_downloader.py`,
lines 61-76)

The filesystem is modelled as the list of existing paths; `os.unlink`
removes a path. -/

/-- Model of `cleanup_temp_file(file_path, original_url)`: delete the file unless
the originating reference is a (truthy) `file://` upload hand-off, in
which case the uploader owns the file and it is left alone. -/
def cleanup_temp_file (fs : List String) (file_path : String)
    (original_url : Option String) : List String :=
  if file_path ∈ fs then
    if pyTruthy original_url ∧ ¬ pyStartsWith (original_url.getD "") "file://" then
      fs.filter (fun p => p ≠ file_path)
    else if pyTruthy original_url ∧ pyStartsWith (original_url.getD "") "file://" then
      fs
    else
      fs.filter (fun p => p ≠ file_path)
  else fs

/-! ## Workflow engine (`backend/app/graph/workflow.py`)

`create_medical_workflow` compiles the fixed chain
`transcription → medical_extraction → diagnosis → END`.  A stage is a
`WorkflowState → Except String WorkflowState`; `Except.error` models an
unhandled exception propagating out of the stage (aborting `ainvoke`),
`Except.ok` a normal return (including recoverable failures).  The
concrete nodes above always return normally and are lifted with
`Except.ok ∘ node`. -/

/-- A stage as seen by the engine. -/
abbrev StageFn := WorkflowState → Except String WorkflowState

/-- The compiled chain of `create_medical_workflow` (workflow.py lines
22-29): entry point `transcription`, then `medical_extraction`, then
`diagnosis`, then `END`; an exception anywhere aborts the chain. -/
def medical_workflow (t e d : StageFn) : StageFn :=
  fun s => (t s).bind (fun s1 => (e s1).bind (fun s2 => d s2))

/-- The initial `WorkflowState` built by `process_medical_request`
(workflow.py lines 53-60).  The `langfuse_trace_id` entry is
tracing-capability bookkeeping (`None` when tracing is disabled) and is
outside the `Nat`-valued metadata embedding. -/
def initial_state (req : ProcessingRequest) (start : Nat) : WorkflowState :=
  { input_data := req
    processing_metadata := [("start_time", start)] }

/-- Assembly of the final `ProcessingResult` from the final state
(workflow.py lines 70-75). -/
def mkProcessingResult (s : WorkflowState) (total : Nat) : ProcessingResult :=
  { transcription := s.transcription
    medical_extraction := s.medical_extraction
    diagnosis_result := s.diagnosis_result
    processing_time := total }

/-- Model of `process_medical_request` (workflow.py lines 34-128): run the chain on
the initial state; on success return the assembled `ProcessingResult`; on
an unhandled exception re-raise `Exception("Workflow execution failed: ...")`
— the partial `error_result` constructed in the handler is never returned. -/
def process_medical_request (t e d : StageFn) (req : ProcessingRequest)
    (start total : Nat) : Except String ProcessingResult :=
  match medical_workflow t e d (initial_state req start) with
  | Except.ok final => Except.ok (mkProcessingResult final total)
  | Except.error msg => Except.error ("Workflow execution failed: " ++ msg)

/-! ## Specification-side diagnosis parsers

`parse_diagnosis_spec` follows the spec's words (§4.3 and the §9 design
note): an explicit line-oriented state machine over the states of
`SectionTag`; a (trimmed) line opens a section exactly when it starts with
one of the three exact header literals; text before the first recognised
header is discarded; each section collects an ordered list of line
contributions which is newline-joined and trimmed at the end (here each
contribution is newline-terminated before concatenation, which yields the
same field once the final trim removes the trailing newline).  Per the C4
counterexample, the contribution of a header line is the line with every
occurrence of the header literal removed (trimmed) — when the literal
occurs exactly once, at the start, this is precisely the text following
the header.

`parse_diagnosis_claimed` is the claim's stricter reading, used only to
refute C4 as stated: a header line contributes exactly the text following
the header on that same line (the header prefix dropped once). -/

/-- Spec-side accumulator: the per-section contribution lists and the
machine state. -/
structure SpecBuffers where
  diagnosisLines : List String := []
  treatmentLines : List String := []
  recommendationLines : List String := []
  st : SectionTag := SectionTag.beforeAny
deriving Repr, DecidableEq

/-- Section-boundary detection of §4.3: which section, if any, a trimmed
line opens. -/
def headerKind (line : String) : Option SectionTag :=
  if pyStartsWith line "DIAGNOSIS:" then some SectionTag.diagnosis
  else if pyStartsWith line "TREATMENT PLAN:" then some SectionTag.treatment
  else if pyStartsWith line "RECOMMENDATIONS:" then some SectionTag.recommendations
  else none

/-- One transition of the spec's state machine. -/
def specStep (b : SpecBuffers) (rawLine : String) : SpecBuffers :=
  let line := pyStrip rawLine
  if pyStartsWith line "DIAGNOSIS:" then
    { b with st := SectionTag.diagnosis,
             diagnosisLines := b.diagnosisLines ++ [pyStrip (pyReplace line "DIAGNOSIS:" "")] }
  else if pyStartsWith line "TREATMENT PLAN:" then
    { b with st := SectionTag.treatment,
             treatmentLines := b.treatmentLines ++ [pyStrip (pyReplace line "TREATMENT PLAN:" "")] }
  else if pyStartsWith line "RECOMMENDATIONS:" then
    { b with st := SectionTag.recommendations,
             recommendationLines := b.recommendationLines ++ [pyStrip (pyReplace line "RECOMMENDATIONS:" "")] }
  else
    match b.st with
    | SectionTag.beforeAny => b
    | SectionTag.diagnosis => { b with diagnosisLines := b.diagnosisLines ++ [line] }
    | SectionTag.treatment => { b with treatmentLines := b.treatmentLines ++ [line] }
    | SectionTag.recommendations => { b with recommendationLines := b.recommendationLines ++ [line] }

/-- Newline-terminated concatenation of a section's contributions. -/
def joinNl : List String → String
  | [] => ""
  | l :: ls => (l ++ "\n") ++ joinNl ls

/-- The spec's parser: run the state machine, then newline-join and trim
each section. -/
def parse_diagnosis_spec (text : String) : DiagnosisResult :=
  let b := (pyLines text).foldl specStep {}
  { diagnosis := pyStrip (joinNl b.diagnosisLines)
    treatment_plan := pyStrip (joinNl b.treatmentLines)
    recommendations := pyStrip (joinNl b.recommendationLines) }

/-- One transition under the claim's strict reading of the header-line
contribution ("only the text following the header on that same line"). -/
def specStepClaimed (b : SpecBuffers) (rawLine : String) : SpecBuffers :=
  let line := pyStrip rawLine
  if pyStartsWith line "DIAGNOSIS:" then
    { b with st := SectionTag.diagnosis,
             diagnosisLines := b.diagnosisLines ++ [pyStrip (String.mk (line.data.drop "DIAGNOSIS:".data.length))] }
  else if pyStartsWith line "TREATMENT PLAN:" then
    { b with st := SectionTag.treatment,
             treatmentLines := b.treatmentLines ++ [pyStrip (String.mk (line.data.drop "TREATMENT PLAN:".data.length))] }
  else if pyStartsWith line "RECOMMENDATIONS:" then
    { b with st := SectionTag.recommendations,
             recommendationLines := b.recommendationLines ++ [pyStrip (String.mk (line.data.drop "RECOMMENDATIONS:".data.length))] }
  else
    match b.st with
    | SectionTag.beforeAny => b
    | SectionTag.diagnosis => { b with diagnosisLines := b.diagnosisLines ++ [line] }
    | SectionTag.treatment => { b with treatmentLines := b.treatmentLines ++ [line] }
    | SectionTag.recommendations => { b with recommendationLines := b.recommendationLines ++ [line] }

/-- The parser exactly as claim C4 states it. -/
def parse_diagnosis_claimed (text : String) : DiagnosisResult :=
  let b := (pyLines text).foldl specStepClaimed {}
  { diagnosis := pyStrip (joinNl b.diagnosisLines)
    treatment_plan := pyStrip (joinNl b.treatmentLines)
    recommendations := pyStrip (joinNl b.recommendationLines) }

/-! ## Helper lemmas -/

/-- Appending one contribution on the spec side matches appending a
newline-terminated chunk on the source side. -/
theorem joinNl_snoc (xs : List String) (c : String) :
    joinNl (xs ++ [c]) = joinNl xs ++ (c ++ "\n") := by
  induction xs with
  | nil => simp [joinNl]
  | cons l ls ih => simp [joinNl, ih, String.append_assoc]

/-- Correspondence between the source parser's accumulator and the spec
machine's buffers. -/
def specRel (acc : ParseAcc) (b : SpecBuffers) : Prop :=
  acc.diagnosis = joinNl b.diagnosisLines ∧
  acc.treatment_plan = joinNl b.treatmentLines ∧
  acc.recommendations = joinNl b.recommendationLines ∧
  acc.current = b.st

/-- One loop iteration preserves the correspondence. -/
theorem specRel_step (acc : ParseAcc) (b : SpecBuffers) (l : String)
    (h : specRel acc b) : specRel (parseLine acc l) (specStep b l) := by
  obtain ⟨ad, at1, ar, ac⟩ := acc
  obtain ⟨bd, bt, br, bs⟩ := b
  obtain ⟨h1, h2, h3, h4⟩ := h
  simp only at h1 h2 h3 h4
  subst h1 h2 h3 h4
  unfold parseLine specStep
  by_cases hd : pyStartsWith (pyStrip l) "DIAGNOSIS:"
  · simp [specRel, hd, joinNl_snoc]
  · by_cases ht : pyStartsWith (pyStrip l) "TREATMENT PLAN:"
    · simp [specRel, hd, ht, joinNl_snoc]
    · by_cases hr : pyStartsWith (pyStrip l) "RECOMMENDATIONS:"
      · simp [specRel, hd, ht, hr, joinNl_snoc]
      · cases ac <;> simp [specRel, hd, ht, hr, joinNl_snoc]

/-- The correspondence is preserved by the whole loop. -/
theorem specRel_foldl (ls : List String) (acc : ParseAcc) (b : SpecBuffers)
    (h : specRel acc b) :
    specRel (ls.foldl parseLine acc) (ls.foldl specStep b) := by
  induction ls generalizing acc b with
  | nil => exact h
  | cons l ls ih => exact ih _ _ (specRel_step acc b l h)

/-- A line that opens no section and arrives before any section is
discarded. -/
theorem parseLine_no_header (acc : ParseAcc) (l : String)
    (h : headerKind (pyStrip l) = none)
    (hc : acc.current = SectionTag.beforeAny) :
    parseLine acc l = acc := by
  by_cases hd : pyStartsWith (pyStrip l) "DIAGNOSIS:"
  · simp [headerKind, hd] at h
  · by_cases ht : pyStartsWith (pyStrip l) "TREATMENT PLAN:"
    · simp [headerKind, hd, ht] at h
    · by_cases hr : pyStartsWith (pyStrip l) "RECOMMENDATIONS:"
      · simp [headerKind, hd, ht, hr] at h
      · unfold parseLine
        simp [hd, ht, hr, hc]

/-- Lookup after appending a fresh binding at the end. -/
theorem lookupMeta_append_new (m : List (String × Nat)) (k : String) (v : Nat)
    (h : m.any (fun p => p.1 = k) = false) :
    lookupMeta (m ++ [(k, v)]) k = some v := by
  induction m with
  | nil => simp [lookupMeta]
  | cons p m ih =>
    simp only [List.any_cons, Bool.or_eq_false_iff, decide_eq_false_iff_not] at h
    obtain ⟨hp, hm⟩ := h
    rw [List.cons_append]
    unfold lookupMeta
    rw [List.find?_cons_of_neg _ (by simpa using hp)]
    exact ih hm

/-- Lookup after updating an existing binding in place. -/
theorem lookupMeta_map_set (m : List (String × Nat)) (k : String) (v : Nat) :
    m.any (fun p => p.1 = k) = true →
    lookupMeta (m.map (fun p => if p.1 = k then (k, v) else p)) k = some v := by
  intro h
  induction m with
  | nil => simp at h
  | cons p m ih =>
    by_cases hp : p.1 = k
    · unfold lookupMeta
      rw [List.map_cons, if_pos hp, List.find?_cons_of_pos _ (by simp)]
      rfl
    · simp only [List.any_cons, decide_eq_true_eq, hp, false_or] at h
      unfold lookupMeta
      rw [List.map_cons, if_neg hp, List.find?_cons_of_neg _ (by simpa using hp)]
      exact ih h

/-- Assoc-list update followed by lookup of the same key. -/
theorem lookupMeta_setMeta (m : List (String × Nat)) (k : String) (v : Nat) :
    lookupMeta (setMeta m k v) k = some v := by
  unfold setMeta
  by_cases h : m.any (fun p => p.1 = k)
  · rw [if_pos h]
    exact lookupMeta_map_set m k v h
  · rw [if_neg h]
    exact lookupMeta_append_new m k v (Bool.eq_false_iff.mpr h)

/-- Folding only unrecognised lines from the pre-section state leaves the
accumulator untouched (text before the first header is discarded). -/
theorem foldl_no_header (ls : List String) (acc : ParseAcc)
    (hc : acc.current = SectionTag.beforeAny)
    (h : ∀ l ∈ ls, headerKind (pyStrip l) = none) :
    ls.foldl parseLine acc = acc := by
  induction ls with
  | nil => rfl
  | cons l ls ih =>
    rw [List.foldl_cons, parseLine_no_header acc l (h l (by simp)) hc]
    exact ih (fun x hx => h x (by simp [hx]))

/-! ## Claims -/

/-- C4 (amended): the diagnosis parser is exactly the spec's line-oriented
state machine — a section boundary exactly when a trimmed line starts with
one of the three exact header literals; text before the first recognised
header discarded; a header line contributing the line with every occurrence
of the header literal removed, trimmed (when the literal occurs once, at
the start, this is the text following the header); subsequent lines
newline-joined onto the current section; each final field trimmed.  The
stated example parses to Flu/Rest/Follow up, and a completion with no
recognised headers yields three empty fields. -/
theorem C4_diagnosis_parser_characterisation :
    (∀ text : String, parse_diagnosis text = parse_diagnosis_spec text) ∧
    (∀ text : String,
        (∀ l ∈ pyLines text, headerKind (pyStrip l) = none) →
        parse_diagnosis text
          = { diagnosis := "", treatment_plan := "", recommendations := "" }) ∧
    parse_diagnosis "DIAGNOSIS:\nFlu\nTREATMENT PLAN:\nRest\nRECOMMENDATIONS:\nFollow up"
      = { diagnosis := "Flu", treatment_plan := "Rest", recommendations := "Follow up" } := by
  refine ⟨?_, ?_, by decide⟩
  · intro text
    obtain ⟨h1, h2, h3, -⟩ :=
      specRel_foldl (pyLines text) {} {} ⟨rfl, rfl, rfl, rfl⟩
    unfold parse_diagnosis parse_diagnosis_spec
    simp only [h1, h2, h3]
  · intro text h
    unfold parse_diagnosis
    simp only [foldl_no_header (pyLines text) {} rfl h]
    decide

/-- C4 counterexample: on a header line containing the header literal
twice, the source parser (which uses replace-all) deletes the second
occurrence as well, so the section is NOT "only the text following the
header on that same line" as the claim states. -/
theorem C4_counterexample :
    (parse_diagnosis "DIAGNOSIS: A DIAGNOSIS: B").diagnosis = "A  B" ∧
    (parse_diagnosis_claimed "DIAGNOSIS: A DIAGNOSIS: B").diagnosis = "A DIAGNOSIS: B" ∧
    parse_diagnosis "DIAGNOSIS: A DIAGNOSIS: B"
      ≠ parse_diagnosis_claimed "DIAGNOSIS: A DIAGNOSIS: B" :=
  ⟨by decide, by decide, by decide⟩

/-- Witness for C4: a concrete completion with no recognised headers
yields three empty fields. -/
theorem C4_witness :
    (∀ l ∈ pyLines "The patient seems fine.\nNothing to add.",
        headerKind (pyStrip l) = none) ∧
    parse_diagnosis "The patient seems fine.\nNothing to add."
      = { diagnosis := "", treatment_plan := "", recommendations := "" } :=
  ⟨by decide,
   C4_diagnosis_parser_characterisation.2.1
     "The patient seems fine.\nNothing to add." (by decide)⟩

/-- C10: the three section buffers only ever grow — every loop iteration
extends each buffer (never removes, replaces or reorders what is already
there) — and a later occurrence of an earlier header reopens that section
and appends to it, so a repeated header yields the newline-joined
concatenation of all its spans in input order. -/
theorem C10_section_buffers_accumulate :
    (∀ (acc : ParseAcc) (l : String),
        acc.diagnosis.data <+: (parseLine acc l).diagnosis.data ∧
        acc.treatment_plan.data <+: (parseLine acc l).treatment_plan.data ∧
        acc.recommendations.data <+: (parseLine acc l).recommendations.data) ∧
    parse_diagnosis "DIAGNOSIS: A\nRECOMMENDATIONS: R\nDIAGNOSIS: B\nC"
      = { diagnosis := "A\nB\nC", treatment_plan := "", recommendations := "R" } := by
  refine ⟨?_, by decide⟩
  intro acc l
  unfold parseLine
  by_cases hd : pyStartsWith (pyStrip l) "DIAGNOSIS:"
  · simp [hd]
  · by_cases ht : pyStartsWith (pyStrip l) "TREATMENT PLAN:"
    · simp [hd, ht]
    · by_cases hr : pyStartsWith (pyStrip l) "RECOMMENDATIONS:"
      · simp [hd, ht, hr]
      · cases hc : acc.current <;> simp [hd, ht, hr, hc]

/-- A request carrying direct text, used to exercise the engine. -/
def reqDemo : ProcessingRequest :=
  { audio_url := none, text := some "Patient reports fever and cough for three days." }

/-- Transcription stage over `reqDemo` (the audio capability is never
consulted on the text path). -/
def tDemo : StageFn :=
  fun s => Except.ok (transcription_node (fun _ => Except.error "unused") 0 s)

/-- Extraction stage whose completion capability fails: the stage appends
an error and returns normally (recoverable failure). -/
def eDemoFail : StageFn :=
  fun s => Except.ok (medical_extraction_node (fun _ => none)
    (fun _ => Except.error "completion capability down") 0 s)

/-- Diagnosis stage whose completion capability returns a well-formed
sectioned completion. -/
def dDemo : StageFn :=
  fun s => Except.ok (diagnosis_node
    (fun _ => Except.ok "DIAGNOSIS:\nFlu\nTREATMENT PLAN:\nRest\nRECOMMENDATIONS:\nFollow up") 0 s)

/-- State after stage 1 of the demo run. -/
def sDemo1 : WorkflowState :=
  transcription_node (fun _ => Except.error "unused") 0 (initial_state reqDemo 0)

/-- State after stage 2 of the demo run (extraction failed recoverably). -/
def sDemo2 : WorkflowState :=
  medical_extraction_node (fun _ => none)
    (fun _ => Except.error "completion capability down") 0 sDemo1

/-- State after stage 3 of the demo run. -/
def sDemo3 : WorkflowState :=
  diagnosis_node
    (fun _ => Except.ok "DIAGNOSIS:\nFlu\nTREATMENT PLAN:\nRest\nRECOMMENDATIONS:\nFollow up") 0 sDemo2

/-- C1: whenever every stage returns normally — in particular when a stage
merely appends to `errors` (recoverable failure) — the engine runs all
three stages in the fixed order transcription → extraction → diagnosis and
returns the `ProcessingResult` assembled from the final state.  The
concrete conjuncts run the engine with a recoverably failing extraction
stage: the chain still reaches the diagnosis stage, which executes against
the default/empty `medical_extraction`, and the engine returns a
`ProcessingResult` (with the extraction error logged in the final state's
`errors`). -/
theorem C1_no_short_circuit_on_recoverable_failure :
    (∀ (t e d : StageFn) (req : ProcessingRequest) (start total : Nat)
        (s1 s2 s3 : WorkflowState),
        t (initial_state req start) = Except.ok s1 →
        e s1 = Except.ok s2 →
        d s2 = Except.ok s3 →
        process_medical_request t e d req start total
          = Except.ok (mkProcessingResult s3 total)) ∧
    medical_workflow tDemo eDemoFail dDemo (initial_state reqDemo 0)
      = Except.ok
        { input_data := reqDemo
          transcription := "Patient reports fever and cough for three days."
          medical_extraction := {}
          diagnosis_result := { diagnosis := "Flu", treatment_plan := "Rest",
                                recommendations := "Follow up" }
          processing_metadata := [("start_time", 0), ("transcription_time", 0),
                                  ("diagnosis_time", 0)]
          errors := ["Medical extraction failed: completion capability down"] } ∧
    process_medical_request tDemo eDemoFail dDemo reqDemo 0 7
      = Except.ok
        { transcription := "Patient reports fever and cough for three days."
          medical_extraction := {}
          diagnosis_result := { diagnosis := "Flu", treatment_plan := "Rest",
                                recommendations := "Follow up" }
          processing_time := 7 } := by
  refine ⟨?_, by rfl, by rfl⟩
  intro t e d req start total s1 s2 s3 h1 h2 h3
  unfold process_medical_request medical_workflow
  rw [h1]
  simp only [Except.bind]
  rw [h2]
  simp only [Except.bind]
  rw [h3]

/-- Witness for C1: the demo stages satisfy the hypotheses definitionally
and the engine returns the assembled result. -/
theorem C1_witness :
    tDemo (initial_state reqDemo 0) = Except.ok sDemo1 ∧
    eDemoFail sDemo1 = Except.ok sDemo2 ∧
    dDemo sDemo2 = Except.ok sDemo3 ∧
    process_medical_request tDemo eDemoFail dDemo reqDemo 0 7
      = Except.ok (mkProcessingResult sDemo3 7) :=
  ⟨rfl, rfl, rfl,
   C1_no_short_circuit_on_recoverable_failure.1 tDemo eDemoFail dDemo
     reqDemo 0 7 sDemo1 sDemo2 sDemo3 rfl rfl rfl⟩

/-- C2: if an unhandled exception propagates out of a stage (the chain
evaluates to an error), `process_medical_request` surfaces the wrapped
`"Workflow execution failed: ..."` error to its caller and returns no
`ProcessingResult` — partial or otherwise — on this path. -/
theorem C2_unhandled_exception_aborts :
    ∀ (t e d : StageFn) (req : ProcessingRequest) (start total : Nat) (msg : String),
      medical_workflow t e d (initial_state req start) = Except.error msg →
      process_medical_request t e d req start total
          = Except.error ("Workflow execution failed: " ++ msg) ∧
      ∀ r : ProcessingResult,
        process_medical_request t e d req start total ≠ Except.ok r := by
  intro t e d req start total msg h
  constructor
  · unfold process_medical_request
    rw [h]
  · intro r hcon
    unfold process_medical_request at hcon
    rw [h] at hcon
    exact Except.noConfusion hcon

/-- Witness for C2: a first stage that raises makes the engine surface the
wrapped error. -/
theorem C2_witness :
    medical_workflow (fun _ => Except.error "boom")
        (fun s => Except.ok s) (fun s => Except.ok s)
        (initial_state {} 0) = Except.error "boom" ∧
    process_medical_request (fun _ => Except.error "boom")
        (fun s => Except.ok s) (fun s => Except.ok s) {} 0 0
      = Except.error ("Workflow execution failed: " ++ "boom") :=
  ⟨rfl,
   (C2_unhandled_exception_aborts (fun _ => Except.error "boom")
     (fun s => Except.ok s) (fun s => Except.ok s) {} 0 0 "boom" rfl).1⟩

/-- C3: when the completion capability returns text whose stripped form is
not parseable as JSON, the extraction stage does not raise (it is a total
function) and sets `medical_extraction` to the fixed fallback value —
symptoms `["Unable to parse symptoms"]`, empty patient info, the fixed
"Unable to parse consultation reason" string, and `extracted_text` equal
to the stage's input transcription — leaving `errors` untouched. -/
theorem C3_json_parse_failure_fallback :
    ∀ (loads : String → Option Json) (complete : String → Except String String)
      (elapsed : Nat) (s : WorkflowState) (content : String),
      complete (extraction_prompt s.transcription) = Except.ok content →
      loads (pyStrip content) = none →
      (medical_extraction_node loads complete elapsed s).medical_extraction
          = fallbackExtraction s.transcription ∧
      (medical_extraction_node loads complete elapsed s).medical_extraction.symptoms
          = ["Unable to parse symptoms"] ∧
      (medical_extraction_node loads complete elapsed s).medical_extraction.patient_info
          = {} ∧
      (medical_extraction_node loads complete elapsed s).medical_extraction.consultation_reason
          = "Unable to parse consultation reason" ∧
      (medical_extraction_node loads complete elapsed s).medical_extraction.extracted_text
          = s.transcription ∧
      (medical_extraction_node loads complete elapsed s).errors = s.errors := by
  intro loads complete elapsed s content hc hl
  unfold medical_extraction_node
  rw [hc]
  dsimp only
  rw [hl]
  exact ⟨rfl, rfl, rfl, rfl, rfl, rfl⟩

/-- Witness for C3: a concrete non-JSON completion yields the fallback. -/
theorem C3_witness :
    ((fun _ => Except.ok "not json" : String → Except String String)
        (extraction_prompt (initial_state { text := some "hello" } 0).transcription)
      = Except.ok "not json") ∧
    ((fun _ => none : String → Option Json) (pyStrip "not json") = none) ∧
    (medical_extraction_node (fun _ => none) (fun _ => Except.ok "not json") 3
        (initial_state { text := some "hello" } 0)).medical_extraction
      = fallbackExtraction (initial_state { text := some "hello" } 0).transcription :=
  ⟨rfl, rfl,
   (C3_json_parse_failure_fallback (fun _ => none) (fun _ => Except.ok "not json") 3
     (initial_state { text := some "hello" } 0) "not json" rfl rfl).1⟩

/-- C5 counterexample: the request whose `text` is set to the empty string
has `text` set, yet the stage takes neither the verbatim path nor records
`transcription_time = 0` — Python's `if state.input_data.text:` is falsy on
`""`, so with no audio URL the stage takes the missing-input error path. -/
theorem C5_counterexample :
    (initial_state { audio_url := none, text := some "" } 0).input_data.text = some "" ∧
    lookupMeta (transcription_node (fun _ => Except.ok "w") 0
        (initial_state { audio_url := none, text := some "" } 0)).processing_metadata
      "transcription_time" ≠ some 0 ∧
    (transcription_node (fun _ => Except.ok "w") 0
        (initial_state { audio_url := none, text := some "" } 0)).errors
      = ["Transcription failed: No audio URL or text provided"] :=
  ⟨rfl, by decide, by decide⟩

/-- C5 (amended): for every state whose request has `text` set to a
NON-EMPTY string, the transcription stage copies that text verbatim,
records `processing_metadata["transcription_time"] = 0`, and appends no
error; non-empty text takes priority over `audio_url` (the latter is
unconstrained here). -/
theorem C5_text_taken_verbatim :
    ∀ (transcribe : String → Except String String) (elapsed : Nat)
      (s : WorkflowState) (t : String),
      s.input_data.text = some t → t ≠ "" →
      (transcription_node transcribe elapsed s).transcription = t ∧
      lookupMeta (transcription_node transcribe elapsed s).processing_metadata
          "transcription_time" = some 0 ∧
      (transcription_node transcribe elapsed s).errors = s.errors := by
  intro transcribe elapsed s t ht hne
  have htr : pyTruthy s.input_data.text = true := by
    rw [ht]
    simp [pyTruthy, hne]
  unfold transcription_node
  rw [if_pos htr]
  refine ⟨?_, lookupMeta_setMeta _ _ _, rfl⟩
  rw [ht]
  rfl

/-- Witness for C5: a request with non-empty text AND an audio URL takes
the text verbatim (priority) with a recorded time of zero. -/
theorem C5_witness :
    ((initial_state { audio_url := some "http://host/a.mp3", text := some "hello" } 0).input_data.text
        = some "hello") ∧
    ("hello" ≠ "") ∧
    (transcription_node (fun _ => Except.error "never called") 5
        (initial_state { audio_url := some "http://host/a.mp3", text := some "hello" } 0)).transcription
      = "hello" ∧
    lookupMeta (transcription_node (fun _ => Except.error "never called") 5
        (initial_state { audio_url := some "http://host/a.mp3", text := some "hello" } 0)).processing_metadata
      "transcription_time" = some 0 :=
  ⟨rfl, by decide,
   (C5_text_taken_verbatim (fun _ => Except.error "never called") 5
     (initial_state { audio_url := some "http://host/a.mp3", text := some "hello" } 0)
     "hello" rfl (by decide)).1,
   (C5_text_taken_verbatim (fun _ => Except.error "never called") 5
     (initial_state { audio_url := some "http://host/a.mp3", text := some "hello" } 0)
     "hello" rfl (by decide)).2.1⟩

/-- C6: with neither `text` nor `audio_url` set, the transcription stage
appends exactly one error string, leaves `transcription` unchanged (hence
still `""` when it was `""`), and returns normally (it is a total
function; the `ValueError` is caught by the stage's generic handler). -/
theorem C6_missing_input_single_error :
    ∀ (transcribe : String → Except String String) (elapsed : Nat) (s : WorkflowState),
      s.input_data.text = none → s.input_data.audio_url = none →
      (transcription_node transcribe elapsed s).errors
          = s.errors ++ ["Transcription failed: No audio URL or text provided"] ∧
      (transcription_node transcribe elapsed s).transcription = s.transcription ∧
      (s.transcription = "" → (transcription_node transcribe elapsed s).transcription = "") := by
  intro transcribe elapsed s ht ha
  have h1 : pyTruthy s.input_data.text = false := by rw [ht]; rfl
  have h2 : pyTruthy s.input_data.audio_url = false := by rw [ha]; rfl
  unfold transcription_node
  rw [if_neg (show ¬ pyTruthy s.input_data.text = true by simp [h1]),
      if_neg (show ¬ pyTruthy s.input_data.audio_url = true by simp [h2])]
  exact ⟨rfl, rfl, fun h => h⟩

/-- Witness for C6: the empty request yields exactly the one error. -/
theorem C6_witness :
    ((initial_state {} 0).input_data.text = none) ∧
    ((initial_state {} 0).input_data.audio_url = none) ∧
    (transcription_node (fun _ => Except.ok "w") 4 (initial_state {} 0)).errors
      = ["Transcription failed: No audio URL or text provided"] := by
  refine ⟨rfl, rfl, ?_⟩
  have h := (C6_missing_input_single_error (fun _ => Except.ok "w") 4
    (initial_state {} 0) rfl rfl).1
  simpa using h

/-- A url with an http(s) scheme is Python-truthy and does not start with
`file://`. -/
theorem http_url_facts (u : String)
    (h : pyStartsWith u "http://" = true ∨ pyStartsWith u "https://" = true) :
    pyTruthy (some u) = true ∧ pyStartsWith u "file://" = false := by
  have hd : ∃ rest, u.data = 'h' :: rest := by
    rcases h with h | h
    · rw [pyStartsWith, List.isPrefixOf_iff_prefix] at h
      obtain ⟨tail, htail⟩ := h
      exact ⟨"ttp://".data ++ tail, by rw [← htail]; rfl⟩
    · rw [pyStartsWith, List.isPrefixOf_iff_prefix] at h
      obtain ⟨tail, htail⟩ := h
      exact ⟨"ttps://".data ++ tail, by rw [← htail]; rfl⟩
  obtain ⟨rest, hrest⟩ := hd
  constructor
  · have hne : u ≠ "" := by
      intro he
      rw [he] at hrest
      exact List.noConfusion hrest
    simp [pyTruthy, hne]
  · have hf : ¬ ("file://".data.isPrefixOf u.data = true) := by
      rw [ List.isPrefixOf_iff_prefix]
      intro hpre
      obtain ⟨tail, htail⟩ := hpre
      rw [hrest] at htail
      have hch : ('f' : Char) = 'h' := by
        have h2 : ('f' :: ("ile://".data ++ tail) : List Char) = 'h' :: rest := htail
        injection h2
      exact absurd hch (by decide)
    rw [pyStartsWith]
    exact Bool.eq_false_iff.mpr hf

/-- C7: releasing a temp file whose originating reference is an http(s)
URL (the download step created it) removes the file from the filesystem,
while releasing a reference tagged as upload-owned (`file://` prefix)
leaves the filesystem unchanged. -/
theorem C7_cleanup_ownership :
    ∀ (fs : List String) (file_path u : String),
      ((pyStartsWith u "http://" = true ∨ pyStartsWith u "https://" = true) →
        file_path ∉ cleanup_temp_file fs file_path (some u)) ∧
      (pyStartsWith u "file://" = true →
        cleanup_temp_file fs file_path (some u) = fs) := by
  intro fs file_path u
  constructor
  · intro h
    obtain ⟨htr, hnf⟩ := http_url_facts u h
    unfold cleanup_temp_file
    by_cases hmem : file_path ∈ fs
    · simp [hmem, htr, hnf, List.mem_filter]
    · simp [hmem]
  · intro hf
    have hne : u ≠ "" := by
      intro he
      rw [pyStartsWith, he] at hf
      exact absurd hf (by decide)
    have htr : pyTruthy (some u) = true := by simp [pyTruthy, hne]
    unfold cleanup_temp_file
    by_cases hmem : file_path ∈ fs
    · simp [hmem, htr, hf]
    · simp [hmem]

/-- Witness for C7: a downloaded temp file is deleted; an upload-owned
reference is preserved. -/
theorem C7_witness :
    (pyStartsWith "http://host/a.mp3" "http://" = true ∨
      pyStartsWith "http://host/a.mp3" "https://" = true) ∧
    "/tmp/a.mp3" ∉ cleanup_temp_file ["/tmp/a.mp3", "/tmp/b.wav"] "/tmp/a.mp3"
        (some "http://host/a.mp3") ∧
    pyStartsWith "file:///tmp/up.mp3" "file://" = true ∧
    cleanup_temp_file ["/tmp/up.mp3"] "/tmp/up.mp3" (some "file:///tmp/up.mp3")
      = ["/tmp/up.mp3"] :=
  ⟨Or.inl (by decide),
   (C7_cleanup_ownership ["/tmp/a.mp3", "/tmp/b.wav"] "/tmp/a.mp3"
     "http://host/a.mp3").1 (Or.inl (by decide)),
   by decide,
   (C7_cleanup_ownership ["/tmp/up.mp3"] "/tmp/up.mp3" "file:///tmp/up.mp3").2
     (by decide)⟩

/-- C8: the `errors` list is append-only — every stage, on every path, has
the prior `errors` list as a prefix of the resulting one (so nothing is
removed, replaced or reordered; either it is unchanged or entries are
appended at the end). -/
theorem C8_errors_append_only :
    (∀ (transcribe : String → Except String String) (elapsed : Nat) (s : WorkflowState),
        s.errors <+: (transcription_node transcribe elapsed s).errors) ∧
    (∀ (loads : String → Option Json) (complete : String → Except String String)
        (elapsed : Nat) (s : WorkflowState),
        s.errors <+: (medical_extraction_node loads complete elapsed s).errors) ∧
    (∀ (complete : String → Except String String) (elapsed : Nat) (s : WorkflowState),
        s.errors <+: (diagnosis_node complete elapsed s).errors) := by
  refine ⟨?_, ?_, ?_⟩
  · intro transcribe elapsed s
    unfold transcription_node
    split
    · simp [List.prefix_refl]
    · split
      · split
        · simp [List.prefix_refl]
        · simp [List.prefix_append]
      · simp [List.prefix_append]
  · intro loads complete elapsed s
    unfold medical_extraction_node
    split
    · simp [List.prefix_append]
    · split
      · simp [List.prefix_refl]
      · split
        · simp [List.prefix_append]
        · simp [List.prefix_refl]
  · intro complete elapsed s
    unfold diagnosis_node
    split
    · simp [List.prefix_append]
    · simp [List.prefix_refl]

/-- C9: a completion that decodes as JSON but violates the model's shape
(a non-object value, or `patient_info.age` outside `[0, 150]`) bypasses the
JSON-decode fallback and takes the stage's generic error path: one
`"Medical extraction failed: ..."` string is appended and
`medical_extraction` (and the metadata) keep their prior values — the
`"Unable to parse symptoms"` fallback is not produced. -/
theorem C9_shape_violation_generic_path :
    (∀ (loads : String → Option Json) (complete : String → Except String String)
        (elapsed : Nat) (s : WorkflowState) (content : String) (j : Json) (msg : String),
        complete (extraction_prompt s.transcription) = Except.ok content →
        loads (pyStrip content) = some j →
        parseExtraction s.transcription j = Except.error msg →
        (medical_extraction_node loads complete elapsed s).errors
            = s.errors ++ ["Medical extraction failed: " ++ msg] ∧
        (medical_extraction_node loads complete elapsed s).medical_extraction
            = s.medical_extraction ∧
        (medical_extraction_node loads complete elapsed s).processing_metadata
            = s.processing_metadata) ∧
    parseExtraction "t" (Json.num 5)
        = Except.error "AttributeError: decoded JSON value is not an object" ∧
    parseExtraction "t" (Json.obj [("patient_info", Json.obj [("age", Json.num 200)])])
        = Except.error "validation error: age must be between 0 and 150" := by
  refine ⟨?_, rfl, rfl⟩
  intro loads complete elapsed s content j msg hc hl hp
  unfold medical_extraction_node
  rw [hc]
  dsimp only
  rw [hl]
  dsimp only
  rw [hp]
  exact ⟨rfl, rfl, rfl⟩

/-- Witness for C9: a completion decoding to the JSON array `[1, 2]`
(valid JSON, not an object) takes the generic error path and leaves the
default extraction in place. -/
theorem C9_witness :
    ((fun _ => Except.ok "[1, 2]" : String → Except String String)
        (extraction_prompt (initial_state {} 0).transcription) = Except.ok "[1, 2]") ∧
    ((fun _ => some (Json.arr [Json.num 1, Json.num 2]) : String → Option Json)
        (pyStrip "[1, 2]") = some (Json.arr [Json.num 1, Json.num 2])) ∧
    parseExtraction (initial_state {} 0).transcription (Json.arr [Json.num 1, Json.num 2])
        = Except.error "AttributeError: decoded JSON value is not an object" ∧
    (medical_extraction_node (fun _ => some (Json.arr [Json.num 1, Json.num 2]))
        (fun _ => Except.ok "[1, 2]") 2 (initial_state {} 0)).errors
      = ["Medical extraction failed: " ++ "AttributeError: decoded JSON value is not an object"] ∧
    (medical_extraction_node (fun _ => some (Json.arr [Json.num 1, Json.num 2]))
        (fun _ => Except.ok "[1, 2]") 2 (initial_state {} 0)).medical_extraction = {} := by
  refine ⟨rfl, rfl, rfl, ?_, ?_⟩
  · have h := (C9_shape_violation_generic_path.1
      (fun _ => some (Json.arr [Json.num 1, Json.num 2])) (fun _ => Except.ok "[1, 2]")
      2 (initial_state {} 0) "[1, 2]" (Json.arr [Json.num 1, Json.num 2])
      "AttributeError: decoded JSON value is not an object" rfl rfl rfl).1
    simpa using h
  · exact (C9_shape_violation_generic_path.1
      (fun _ => some (Json.arr [Json.num 1, Json.num 2])) (fun _ => Except.ok "[1, 2]")
      2 (initial_state {} 0) "[1, 2]" (Json.arr [Json.num 1, Json.num 2])
      "AttributeError: decoded JSON value is not an object" rfl rfl rfl).2.1
